import Mathlib

/-!
Verification of the frameless-window interaction engine of qwindowkit
(src/core/contexts/qtwindowcontext.cpp), as a shallow embedding.

The development models, faithfully to the C++ source:
  - the geometry engine (calculateCursorShape, calculateWindowEdges);
  - the mouse-event interaction state machine (QtWindowEventFilter::sharedEventFilter);
  - the process-wide native hook table (installSystemMenuHook, uninstallSystemMenuHook)
    and the replacement window procedure (SystemMenuHookWindowProc);
  - the system menu controller (showSystemMenu_sys).

External collaborators (Qt delegates, the Win32 API) are modelled as explicit
environment records; side effects are modelled as returned action lists and
result records.
-/

set_option linter.unusedVariables false

namespace QWK

/-! ## Basic data model -/

/-- Logical pixel coordinates of a pointer position, integer valued as in Qt. -/
structure QPoint where
  x : Int
  y : Int
deriving DecidableEq, Repr

/-- QWindow visibility values relevant to the code. -/
inductive Visibility
  | Hidden
  | AutomaticVisibility
  | Windowed
  | Minimized
  | Maximized
  | FullScreen
deriving DecidableEq, Repr

/-- The window data the geometry functions read: size and visibility. -/
structure WinInfo where
  width : Int
  height : Int
  visibility : Visibility
deriving DecidableEq, Repr

/-- The cursor shapes produced by calculateCursorShape. -/
inductive CursorShape
  | ArrowCursor
  | SizeFDiagCursor
  | SizeBDiagCursor
  | SizeHorCursor
  | SizeVerCursor
deriving DecidableEq, Repr

/-- A set of window edges, mirroring Qt.Edges as four flag bits. -/
structure Edges where
  left : Bool
  right : Bool
  top : Bool
  bottom : Bool
deriving DecidableEq, Repr

/-- The empty edge set, mirroring a default-constructed Qt.Edges value. -/
def Edges.none : Edges := ⟨false, false, false, false⟩

/-- Number of members of an edge set. -/
def Edges.count (e : Edges) : Nat :=
  (cond e.left 1 0) + (cond e.right 1 0) + (cond e.top 1 0) + (cond e.bottom 1 0)

/-- The fixed resize border thickness constant of the source (8 logical units). -/
def kDefaultResizeBorderThickness : Int := 8

/-! ## Geometry engine

Direct translations of the two pure functions of the source.  The macOS
branch of the source is compiled out on the platforms the spec describes;
the general branch is the one modelled. -/

/-- Translation of calculateCursorShape: maps window data and a pointer
position to the cursor shape shown over that point. -/
def calculateCursorShape (win : WinInfo) (pos : QPoint) : CursorShape :=
  if win.visibility ≠ Visibility.Windowed then
    CursorShape.ArrowCursor
  else if (pos.x < kDefaultResizeBorderThickness ∧ pos.y < kDefaultResizeBorderThickness) ∨
          (pos.x ≥ win.width - kDefaultResizeBorderThickness ∧
           pos.y ≥ win.height - kDefaultResizeBorderThickness) then
    CursorShape.SizeFDiagCursor
  else if (pos.x ≥ win.width - kDefaultResizeBorderThickness ∧
           pos.y < kDefaultResizeBorderThickness) ∨
          (pos.x < kDefaultResizeBorderThickness ∧
           pos.y ≥ win.height - kDefaultResizeBorderThickness) then
    CursorShape.SizeBDiagCursor
  else if pos.x < kDefaultResizeBorderThickness ∨
          pos.x ≥ win.width - kDefaultResizeBorderThickness then
    CursorShape.SizeHorCursor
  else if pos.y < kDefaultResizeBorderThickness ∨
          pos.y ≥ win.height - kDefaultResizeBorderThickness then
    CursorShape.SizeVerCursor
  else
    CursorShape.ArrowCursor

/-- Translation of calculateWindowEdges: maps window data and a pointer
position to the set of edges a resize started there would drag. -/
def calculateWindowEdges (win : WinInfo) (pos : QPoint) : Edges :=
  if win.visibility ≠ Visibility.Windowed then
    Edges.none
  else
    { left := decide (pos.x < kDefaultResizeBorderThickness)
      right := decide (pos.x ≥ win.width - kDefaultResizeBorderThickness)
      top := decide (pos.y < kDefaultResizeBorderThickness)
      bottom := decide (pos.y ≥ win.height - kDefaultResizeBorderThickness) }

/-! ## Nine-region classification

Modelled from the spec wording for the refinement claim about the geometry
engine: the window rectangle is partitioned into nine regions measured by the
border thickness from each edge, corner tests checked before single-edge
tests.  A point at integer coordinate x is within the thickness of the left
edge when x < 8 and within the thickness of the right edge when its distance
to the last column, w - 1 - x, is below 8, that is when x ≥ w - 8. -/

/-- The nine regions of the window rectangle named by the spec. -/
inductive Region
  | topLeft
  | topRight
  | bottomLeft
  | bottomRight
  | leftBand
  | rightBand
  | topBand
  | bottomBand
  | interior
deriving DecidableEq, Repr

/-- Nine-way classification of a pointer position, corner tests first,
then the left and right bands, then the top and bottom bands. -/
def nineRegionClassification (w h x y : Int) : Region :=
  if x < kDefaultResizeBorderThickness ∧ y < kDefaultResizeBorderThickness then
    Region.topLeft
  else if x ≥ w - kDefaultResizeBorderThickness ∧ y ≥ h - kDefaultResizeBorderThickness then
    Region.bottomRight
  else if x ≥ w - kDefaultResizeBorderThickness ∧ y < kDefaultResizeBorderThickness then
    Region.topRight
  else if x < kDefaultResizeBorderThickness ∧ y ≥ h - kDefaultResizeBorderThickness then
    Region.bottomLeft
  else if x < kDefaultResizeBorderThickness then
    Region.leftBand
  else if x ≥ w - kDefaultResizeBorderThickness then
    Region.rightBand
  else if y < kDefaultResizeBorderThickness then
    Region.topBand
  else if y ≥ h - kDefaultResizeBorderThickness then
    Region.bottomBand
  else
    Region.interior

/-- The cursor the spec assigns to each of the nine regions. -/
def cursorForRegion : Region → CursorShape
  | Region.topLeft => CursorShape.SizeFDiagCursor
  | Region.bottomRight => CursorShape.SizeFDiagCursor
  | Region.topRight => CursorShape.SizeBDiagCursor
  | Region.bottomLeft => CursorShape.SizeBDiagCursor
  | Region.leftBand => CursorShape.SizeHorCursor
  | Region.rightBand => CursorShape.SizeHorCursor
  | Region.topBand => CursorShape.SizeVerCursor
  | Region.bottomBand => CursorShape.SizeVerCursor
  | Region.interior => CursorShape.ArrowCursor

/-! ## Interaction state machine

Shallow embedding of QtWindowEventFilter::sharedEventFilter.  The mutable
members m_windowStatus and m_cursorShapeChanged form the machine state; the
values the filter reads from its context and delegate (fixed-size flag,
title-bar hit test of the scene position, window flags and window states)
are an explicit per-event context record; the delegate calls the filter
makes are returned as a list of actions and the return value of the filter
is the handled flag. -/

/-- The five interaction states of QtWindowEventFilter. -/
inductive WindowStatus
  | Idle
  | WaitingRelease
  | PreparingMove
  | Moving
  | Resizing
deriving DecidableEq, Repr

/-- The event types the filter reacts to.  Other stands for every QEvent
type outside the MouseButtonPress .. MouseMove range, which the filter
forwards unhandled at once. -/
inductive QEventType
  | MouseButtonPress
  | MouseButtonRelease
  | MouseButtonDblClick
  | MouseMove
  | Other
deriving DecidableEq, Repr

/-- The mouse buttons the filter distinguishes. -/
inductive MouseButton
  | LeftButton
  | RightButton
  | OtherButton
deriving DecidableEq, Repr

/-- Window state bits read and written through the delegate. -/
structure WindowStates where
  maximized : Bool
  minimized : Bool
  fullScreen : Bool
deriving DecidableEq, Repr

/-- Per-event context: everything sharedEventFilter reads from the window
context, the window and the delegate while handling one event. -/
structure FilterCtx where
  fixedSize : Bool
  inTitleBar : Bool
  win : WinInfo
  scenePos : QPoint
  maximizeButtonHint : Bool
  windowStates : WindowStates
deriving DecidableEq, Repr

/-- The delegate and context calls the filter can make while handling one
event, in program order. -/
inductive FilterAction
  | startSystemResize (edges : Edges)
  | showSystemMenu
  | startSystemMove
  | setWindowState (s : WindowStates)
  | setCursorShape (shape : CursorShape)
  | restoreCursorShape
deriving DecidableEq, Repr

/-- The mutable members of QtWindowEventFilter. -/
structure MachineState where
  windowStatus : WindowStatus
  cursorShapeChanged : Bool
deriving DecidableEq, Repr

/-- Result of one invocation of the filter: the successor machine state,
the delegate calls made, and the boolean the filter returns (true means
the event is swallowed). -/
structure FilterResult where
  state : MachineState
  actions : List FilterAction
  handled : Bool
deriving DecidableEq, Repr

/-- Translation of QtWindowEventFilter::sharedEventFilter, one event. -/
def sharedEventFilter (m : MachineState) (ctx : FilterCtx) (etype : QEventType)
    (button : MouseButton) : FilterResult :=
  match etype with
  | QEventType.Other => ⟨m, [], false⟩
  | QEventType.MouseButtonPress =>
    match button with
    | MouseButton.LeftButton =>
      if ctx.fixedSize = false ∧ calculateWindowEdges ctx.win ctx.scenePos ≠ Edges.none then
        ⟨⟨WindowStatus.Resizing, m.cursorShapeChanged⟩,
         [FilterAction.startSystemResize (calculateWindowEdges ctx.win ctx.scenePos)], true⟩
      else if ctx.inTitleBar then
        ⟨⟨WindowStatus.PreparingMove, m.cursorShapeChanged⟩, [], true⟩
      else
        ⟨⟨WindowStatus.WaitingRelease, m.cursorShapeChanged⟩, [], false⟩
    | MouseButton.RightButton =>
      if ctx.inTitleBar then
        ⟨⟨WindowStatus.WaitingRelease, m.cursorShapeChanged⟩, [FilterAction.showSystemMenu], false⟩
      else
        ⟨⟨WindowStatus.WaitingRelease, m.cursorShapeChanged⟩, [], false⟩
    | MouseButton.OtherButton =>
      ⟨⟨WindowStatus.WaitingRelease, m.cursorShapeChanged⟩, [], false⟩
  | QEventType.MouseButtonRelease =>
    match m.windowStatus with
    | WindowStatus.PreparingMove => ⟨⟨WindowStatus.Idle, m.cursorShapeChanged⟩, [], true⟩
    | WindowStatus.Moving => ⟨⟨WindowStatus.Idle, m.cursorShapeChanged⟩, [], true⟩
    | WindowStatus.Resizing => ⟨⟨WindowStatus.Idle, m.cursorShapeChanged⟩, [], true⟩
    | WindowStatus.WaitingRelease => ⟨⟨WindowStatus.Idle, m.cursorShapeChanged⟩, [], false⟩
    | WindowStatus.Idle =>
      if ctx.inTitleBar then ⟨m, [], true⟩ else ⟨m, [], false⟩
  | QEventType.MouseMove =>
    match m.windowStatus with
    | WindowStatus.Moving => ⟨m, [], true⟩
    | WindowStatus.PreparingMove =>
      ⟨⟨WindowStatus.Moving, m.cursorShapeChanged⟩, [FilterAction.startSystemMove], true⟩
    | WindowStatus.Idle =>
      if ctx.fixedSize then ⟨m, [], false⟩
      else if calculateCursorShape ctx.win ctx.scenePos = CursorShape.ArrowCursor then
        if m.cursorShapeChanged then
          ⟨⟨WindowStatus.Idle, false⟩, [FilterAction.restoreCursorShape], false⟩
        else ⟨m, [], false⟩
      else
        ⟨⟨WindowStatus.Idle, true⟩,
         [FilterAction.setCursorShape (calculateCursorShape ctx.win ctx.scenePos)], false⟩
    | WindowStatus.WaitingRelease => ⟨m, [], false⟩
    | WindowStatus.Resizing => ⟨m, [], false⟩
  | QEventType.MouseButtonDblClick =>
    if button = MouseButton.LeftButton ∧ ctx.inTitleBar = true ∧ ctx.fixedSize = false then
      if ctx.maximizeButtonHint = true ∧ ctx.windowStates.fullScreen = false then
        ⟨m, [FilterAction.setWindowState
              (if ctx.windowStates.maximized then
                 { ctx.windowStates with maximized := false }
               else
                 { ctx.windowStates with maximized := true })], true⟩
      else ⟨m, [], false⟩
    else ⟨m, [], false⟩

/-! ## Native hook table and message interception

Shallow embedding of the Windows part of the source: the process-wide
hash g_qtContextHash, installSystemMenuHook, uninstallSystemMenuHook and
the replacement window procedure SystemMenuHookWindowProc.  Native window
handles are naturals; a window procedure is either the replacement hook
procedure or an opaque external procedure identified by a natural.  The
per-window procedure slot that GetWindowLongPtrW reads and
SetWindowLongPtrW writes is a function from handles to optional
procedures (none models a null pointer). -/

/-- Native window handle. -/
abbrev HWND := Nat

/-- A window procedure value: the replacement hook procedure installed by
this engine, or an opaque external procedure. -/
inductive WndHandler
  | hook
  | ext (n : Nat)
deriving DecidableEq, Repr

/-- Translation of Win32QtContextData: the captured original window
procedure (nullable) and a back-reference to the owning context,
modelled as an opaque identifier. -/
structure HookRecord where
  originalWindowProc : Option WndHandler
  context : Nat
deriving DecidableEq, Repr

/-- Lookup in the hook table, mirroring QHash contains and value access. -/
def findRec : List (HWND × HookRecord) → HWND → Option HookRecord
  | [], _ => none
  | (k, v) :: rest, hwnd => if k = hwnd then some v else findRec rest hwnd

/-- Removal from the hook table, mirroring QHash remove of a unique key. -/
def removeRec : List (HWND × HookRecord) → HWND → List (HWND × HookRecord)
  | [], _ => []
  | (k, v) :: rest, hwnd => if k = hwnd then rest else (k, v) :: removeRec rest hwnd

/-- The mutable process-wide state the hook operations touch: every
window's procedure slot and the table g_qtContextHash. -/
structure SysState where
  wndProc : HWND → Option WndHandler
  qtContextHash : List (HWND × HookRecord)

/-- Translation of installSystemMenuHook: a no-op when the handle is
already in the table; otherwise captures the current window procedure
and, when that is not null, substitutes the hook procedure and records
the pair. -/
def installSystemMenuHook (hwnd : HWND) (ctxId : Nat) (s : SysState) : SysState :=
  if (findRec s.qtContextHash hwnd).isSome then s
  else
    match s.wndProc hwnd with
    | none => s
    | some origProc =>
      { wndProc := fun w => if w = hwnd then some WndHandler.hook else s.wndProc w
        qtContextHash := (hwnd, ⟨some origProc, ctxId⟩) :: s.qtContextHash }

/-- Translation of uninstallSystemMenuHook: a no-op when the handle is
absent; otherwise restores the recorded original procedure (when not
null) and removes the record. -/
def uninstallSystemMenuHook (hwnd : HWND) (s : SysState) : SysState :=
  match findRec s.qtContextHash hwnd with
  | none => s
  | some data =>
    { wndProc :=
        match data.originalWindowProc with
        | some origProc => fun w => if w = hwnd then some origProc else s.wndProc w
        | none => s.wndProc
      qtContextHash := removeRec s.qtContextHash hwnd }

/-- Win32 constants used by the source, with their header values. -/
def HTCAPTION : Nat := 2

/-- System command code for interactive resize. -/
def SC_SIZE : Nat := 0xF000

/-- System command code for interactive move. -/
def SC_MOVE : Nat := 0xF010

/-- System command code for minimize. -/
def SC_MINIMIZE : Nat := 0xF020

/-- System command code for maximize. -/
def SC_MAXIMIZE : Nat := 0xF030

/-- System command code for close. -/
def SC_CLOSE : Nat := 0xF060

/-- System command sub-code for the keyboard menu gesture. -/
def SC_KEYMENU : Nat := 0xF100

/-- System command code for restore. -/
def SC_RESTORE : Nat := 0xF120

/-- Virtual key code of the Alt key. -/
def VK_MENU : Nat := 0x12

/-- Virtual key code of the space bar. -/
def VK_SPACE : Nat := 0x20

/-- The largest 32-bit unsigned value, the sentinel of the source. -/
def UINT_MAX : Nat := 4294967295

/-- The native messages the replacement procedure inspects.  rbuttonup
carries the client-local position of WM_RBUTTONUP; ncrbuttonup the
hit-test code and screen position of WM_NCRBUTTONUP; syscommand the two
parameters of WM_SYSCOMMAND; keydown the virtual key of WM_KEYDOWN or
WM_SYSKEYDOWN together with the GetKeyState answers for Alt and space at
that instant; other stands for every remaining message, identified by
its code. -/
inductive NMsg
  | rbuttonup (x y : Int)
  | ncrbuttonup (wParam : Nat) (x y : Int)
  | syscommand (wParam lParam : Nat)
  | keydown (wParam : Nat) (altKeyDown spaceKeyDown : Bool)
  | other (uMsg : Nat)
deriving DecidableEq, Repr

/-- The answers of the external collaborators the replacement procedure
consults: the context hit test on the converted local position, the
client-to-screen conversion, the window rectangle origin from
GetWindowRect and the fixed-size flag of the host. -/
structure NativeEnv where
  inTitleBarDraggable : Int → Int → Bool
  clientToScreen : Int → Int → Int × Int
  windowRect : Int × Int
  isHostSizeFixed : Bool

/-- The trigger test of SystemMenuHookWindowProc: for a designated
message it yields the computed global position together with the
brought-by-keyboard flag, otherwise none.  It answers some exactly for a
client-area right-button-up inside the title-bar draggable area, a
non-client right-button-up at the caption hit-test code, a system
command equal to the keyboard-menu sub-code with a space lParam, and a
key-down with both Alt and space down. -/
def systemMenuTrigger (env : NativeEnv) (msg : NMsg) : Option ((Int × Int) × Bool) :=
  match msg with
  | NMsg.rbuttonup x y =>
    if env.inTitleBarDraggable x y then some (env.clientToScreen x y, false) else none
  | NMsg.ncrbuttonup wParam x y =>
    if wParam = HTCAPTION then some ((x, y), false) else none
  | NMsg.syscommand wParam lParam =>
    if (wParam &&& 0xFFF0) = SC_KEYMENU ∧ lParam = VK_SPACE then
      some ((env.windowRect.1, env.windowRect.2 + 30), true)
    else none
  | NMsg.keydown wParam altKeyDown spaceKeyDown =>
    if ((wParam = VK_MENU) ∨ altKeyDown = true) ∧
       ((wParam = VK_SPACE) ∨ spaceKeyDown = true) then
      some ((env.windowRect.1, env.windowRect.2 + 30), true)
    else none
  | NMsg.other _ => none

/-- Where one dispatched message ends up: swallowed with a handled result
(the procedure returned 0), forwarded to a recorded original procedure,
or forwarded to the platform default handler DefWindowProcW. -/
inductive HookRoute
  | swallowed
  | callOriginal (h : WndHandler)
  | defProc
deriving DecidableEq, Repr

/-- Observable outcome of one call of the replacement procedure: the
arguments of the showSystemMenu call when one was made (global position,
brought-by-keyboard flag, fixed-size flag), and the route of the
message. -/
structure HookProcResult where
  menuInvoked : Option ((Int × Int) × Bool × Bool)
  route : HookRoute
deriving DecidableEq, Repr

/-- Translation of SystemMenuHookWindowProc: looks the handle up in the
table; when absent falls back to DefWindowProcW; when present either
shows the system menu and swallows a designated message, or forwards to
the recorded original procedure (DefWindowProcW when that is null). -/
def SystemMenuHookWindowProc (env : NativeEnv) (table : List (HWND × HookRecord))
    (hwnd : HWND) (msg : NMsg) : HookProcResult :=
  match findRec table hwnd with
  | none => ⟨none, HookRoute.defProc⟩
  | some data =>
    match systemMenuTrigger env msg with
    | some (pos, byKeyboard) =>
      ⟨some (pos, byKeyboard, env.isHostSizeFixed), HookRoute.swallowed⟩
    | none =>
      match data.originalWindowProc with
      | some origProc => ⟨none, HookRoute.callOriginal origProc⟩
      | none => ⟨none, HookRoute.defProc⟩

/-- Where the OS delivers a message sent to a window: to the replacement
procedure (which then dispatches through the table), to an external
procedure, or nowhere when the slot is null. -/
inductive Delivered
  | hookDispatched (r : HookProcResult)
  | reachedHandler (n : Nat)
  | noHandler
deriving DecidableEq, Repr

/-- Message delivery: the OS invokes whatever procedure the window slot
holds. -/
def deliverMessage (env : NativeEnv) (s : SysState) (hwnd : HWND) (msg : NMsg) : Delivered :=
  match s.wndProc hwnd with
  | none => Delivered.noHandler
  | some WndHandler.hook =>
    Delivered.hookDispatched (SystemMenuHookWindowProc env s.qtContextHash hwnd msg)
  | some (WndHandler.ext n) => Delivered.reachedHandler n

/-! ## System menu controller

Shallow embedding of showSystemMenu_sys.  The Win32 calls it makes are
modelled through an environment record for the values read (menu handle
availability, style bits, zoomed state, text direction, the user choice
TrackPopupMenu returns) and a result record for the effects (the item
configuration applied, the popup display, the final unhighlight, the
posted command and the returned boolean). -/

/-- The values showSystemMenu_sys reads from the OS. -/
structure MenuWindowEnv where
  hasSystemMenu : Bool
  allowMaximize : Bool
  allowMinimize : Bool
  isZoomed : Bool
  isRightToLeft : Bool
  trackPopupMenuResult : Nat
deriving DecidableEq, Repr

/-- The enablement and default-item configuration the controller applies
to the menu before showing it. -/
structure MenuConfig where
  closeEnabled : Bool
  maximizeEnabled : Bool
  restoreEnabled : Bool
  restoreHilitedOnShow : Bool
  minimizeEnabled : Bool
  sizeEnabled : Bool
  moveEnabled : Bool
  defaultItem : Nat
deriving DecidableEq, Repr

/-- Observable outcome of one showSystemMenu_sys call. -/
structure MenuResult where
  config : Option MenuConfig
  displayedAt : Option ((Int × Int) × Bool)
  clearedHilite : Bool
  postedCommand : Option Nat
  returnValue : Bool
deriving DecidableEq, Repr

/-- Translation of showSystemMenu_sys. -/
def showSystemMenu_sys (env : MenuWindowEnv) (pos : Int × Int)
    (selectFirstEntry fixedSize : Bool) : MenuResult :=
  if env.hasSystemMenu = false then
    ⟨none, none, false, none, true⟩
  else
    let max := env.isZoomed
    let cfg : MenuConfig :=
      { closeEnabled := true
        maximizeEnabled := !(max || fixedSize || !env.allowMaximize)
        restoreEnabled := max && !fixedSize && env.allowMaximize
        restoreHilitedOnShow := selectFirstEntry
        minimizeEnabled := env.allowMinimize
        sizeEnabled := !(max || fixedSize)
        moveEnabled := !max
        defaultItem :=
          let d := if max then SC_RESTORE else SC_MAXIMIZE
          if d = UINT_MAX then SC_CLOSE else d }
    if env.trackPopupMenuResult = 0 then
      ⟨some cfg, some (pos, env.isRightToLeft), true, none, false⟩
    else
      ⟨some cfg, some (pos, env.isRightToLeft), true, some env.trackPopupMenuResult, true⟩

/-! ## Concrete instances used by witnesses -/

/-- A normally-windowed 640 by 480 window. -/
def winW : WinInfo := ⟨640, 480, Visibility.Windowed⟩

/-- A maximized 640 by 480 window. -/
def winMax : WinInfo := ⟨640, 480, Visibility.Maximized⟩

/-- A filter context: resizable window, pointer in the title bar interior. -/
def ctxW : FilterCtx := ⟨false, true, winW, ⟨100, 10⟩, true, ⟨false, false, false⟩⟩

/-- A filter context for a fixed-size window, pointer in the title bar. -/
def ctxFixed : FilterCtx := ⟨true, true, winW, ⟨100, 10⟩, true, ⟨false, false, false⟩⟩

/-- A native environment whose hit test always answers true. -/
def envW : NativeEnv := ⟨fun _ _ => true, fun x y => (x + 10, y + 30), (100, 200), false⟩

/-- A system state holding one external procedure on handle 7 and an
empty hook table. -/
def sInit : SysState :=
  ⟨fun w => if w = 7 then some (WndHandler.ext 4) else none, []⟩

/-- A hook table with one record for handle 5. -/
def tableW : List (HWND × HookRecord) := [(5, ⟨some (WndHandler.ext 9), 1⟩)]

/-- A menu environment: menu available, maximizable, minimizable, zoomed,
left-to-right, popup dismissed. -/
def menuEnvMax : MenuWindowEnv := ⟨true, true, true, true, false, 0⟩

/-- A menu environment whose system menu handle is unavailable. -/
def menuEnvNone : MenuWindowEnv := ⟨false, true, true, false, false, 0⟩

/-! ## Theorems -/

/-- C2: for every window and pointer position, when the visibility mode is
not the normal windowed state both geometry functions degenerate: the edge
set is empty and the cursor is the default arrow.  Otherwise the window
rectangle is partitioned into the nine regions measured by the border
thickness 8 from each edge (corner tests checked before single-edge tests,
as nineRegionClassification orders them): the top-left and bottom-right
corners yield one diagonal cursor, top-right and bottom-left the other,
the left and right bands the horizontal cursor, the top and bottom bands
the vertical cursor, and the interior the default arrow together with the
empty edge set. -/
theorem c2_nine_region_classification (win : WinInfo) (pos : QPoint) :
    (win.visibility ≠ Visibility.Windowed →
       calculateWindowEdges win pos = Edges.none ∧
       calculateCursorShape win pos = CursorShape.ArrowCursor) ∧
    (win.visibility = Visibility.Windowed →
       calculateCursorShape win pos =
         cursorForRegion (nineRegionClassification win.width win.height pos.x pos.y) ∧
       (nineRegionClassification win.width win.height pos.x pos.y = Region.interior →
          calculateWindowEdges win pos = Edges.none)) := by
  constructor
  · intro hvis
    constructor <;> simp [calculateWindowEdges, calculateCursorShape, hvis]
  · intro hvis
    constructor
    · by_cases p1 : pos.x < (8 : Int) <;>
      by_cases p2 : pos.x ≥ win.width - (8 : Int) <;>
      by_cases p3 : pos.y < (8 : Int) <;>
      by_cases p4 : pos.y ≥ win.height - (8 : Int) <;>
        simp [calculateCursorShape, nineRegionClassification, cursorForRegion,
          kDefaultResizeBorderThickness, hvis, p1, p2, p3, p4]
    · intro hreg
      by_cases p1 : pos.x < (8 : Int) <;>
      by_cases p2 : pos.x ≥ win.width - (8 : Int) <;>
      by_cases p3 : pos.y < (8 : Int) <;>
      by_cases p4 : pos.y ≥ win.height - (8 : Int) <;>
        simp [nineRegionClassification, kDefaultResizeBorderThickness,
          p1, p2, p3, p4] at hreg <;>
        simp [calculateWindowEdges, Edges.none, kDefaultResizeBorderThickness,
          hvis, p1, p2, p3, p4]

/-- C2 witness: evaluation at concrete inputs, a maximized window for the
degenerate case and a windowed one for the interior case. -/
theorem c2_nine_region_classification_witness :
    (calculateWindowEdges winMax ⟨3, 3⟩ = Edges.none ∧
     calculateCursorShape winMax ⟨3, 3⟩ = CursorShape.ArrowCursor) ∧
    calculateCursorShape winW ⟨320, 240⟩ =
      cursorForRegion (nineRegionClassification winW.width winW.height 320 240) :=
  ⟨(c2_nine_region_classification winMax ⟨3, 3⟩).1 (by decide),
   ((c2_nine_region_classification winW ⟨320, 240⟩).2 (by decide)).1⟩

/-- C3 counterexample: in a windowed 10 by 100 window the pointer (5, 3)
lies within the border thickness of the two adjacent edges left and top,
yet calculateWindowEdges returns a set of three members (left, right and
top), not exactly two: the claim fails for windows narrower than twice the
border thickness. -/
theorem c3_counterexample :
    (5 : Int) < kDefaultResizeBorderThickness ∧
    (3 : Int) < kDefaultResizeBorderThickness ∧
    calculateWindowEdges ⟨10, 100, Visibility.Windowed⟩ ⟨5, 3⟩ =
      ⟨true, true, true, false⟩ ∧
    Edges.count (calculateWindowEdges ⟨10, 100, Visibility.Windowed⟩ ⟨5, 3⟩) = 3 := by
  decide

/-- C3 amended: for every windowed-mode window whose width and height are at
least twice the border thickness, a pointer position within the thickness of
two adjacent edges yields exactly those two edges (a valid adjacent pair,
two members) and the diagonal cursor matching the corner orientation:
top-left and bottom-right one diagonal, top-right and bottom-left the
other. -/
theorem c3_corner_regions (w h x y : Int)
    (hw : 2 * kDefaultResizeBorderThickness ≤ w)
    (hh : 2 * kDefaultResizeBorderThickness ≤ h) :
    (x < kDefaultResizeBorderThickness → y < kDefaultResizeBorderThickness →
       calculateWindowEdges ⟨w, h, Visibility.Windowed⟩ ⟨x, y⟩ = ⟨true, false, true, false⟩ ∧
       Edges.count (calculateWindowEdges ⟨w, h, Visibility.Windowed⟩ ⟨x, y⟩) = 2 ∧
       calculateCursorShape ⟨w, h, Visibility.Windowed⟩ ⟨x, y⟩ = CursorShape.SizeFDiagCursor) ∧
    (x ≥ w - kDefaultResizeBorderThickness → y ≥ h - kDefaultResizeBorderThickness →
       calculateWindowEdges ⟨w, h, Visibility.Windowed⟩ ⟨x, y⟩ = ⟨false, true, false, true⟩ ∧
       Edges.count (calculateWindowEdges ⟨w, h, Visibility.Windowed⟩ ⟨x, y⟩) = 2 ∧
       calculateCursorShape ⟨w, h, Visibility.Windowed⟩ ⟨x, y⟩ = CursorShape.SizeFDiagCursor) ∧
    (x ≥ w - kDefaultResizeBorderThickness → y < kDefaultResizeBorderThickness →
       calculateWindowEdges ⟨w, h, Visibility.Windowed⟩ ⟨x, y⟩ = ⟨false, true, true, false⟩ ∧
       Edges.count (calculateWindowEdges ⟨w, h, Visibility.Windowed⟩ ⟨x, y⟩) = 2 ∧
       calculateCursorShape ⟨w, h, Visibility.Windowed⟩ ⟨x, y⟩ = CursorShape.SizeBDiagCursor) ∧
    (x < kDefaultResizeBorderThickness → y ≥ h - kDefaultResizeBorderThickness →
       calculateWindowEdges ⟨w, h, Visibility.Windowed⟩ ⟨x, y⟩ = ⟨true, false, false, true⟩ ∧
       Edges.count (calculateWindowEdges ⟨w, h, Visibility.Windowed⟩ ⟨x, y⟩) = 2 ∧
       calculateCursorShape ⟨w, h, Visibility.Windowed⟩ ⟨x, y⟩ = CursorShape.SizeBDiagCursor) := by
  simp only [kDefaultResizeBorderThickness] at hw hh
  refine ⟨?_, ?_, ?_, ?_⟩ <;> intro h1 h2 <;>
    simp only [kDefaultResizeBorderThickness] at h1 h2
  · have p2 : ¬ (x ≥ w - (8 : Int)) := by omega
    have p4 : ¬ (y ≥ h - (8 : Int)) := by omega
    refine ⟨?_, ?_, ?_⟩ <;>
      simp [calculateWindowEdges, calculateCursorShape, Edges.count,
        kDefaultResizeBorderThickness, h1, h2, p2, p4]
  · have p1 : ¬ (x < (8 : Int)) := by omega
    have p3 : ¬ (y < (8 : Int)) := by omega
    refine ⟨?_, ?_, ?_⟩ <;>
      simp [calculateWindowEdges, calculateCursorShape, Edges.count,
        kDefaultResizeBorderThickness, h1, h2, p1, p3]
  · have p1 : ¬ (x < (8 : Int)) := by omega
    have p4 : ¬ (y ≥ h - (8 : Int)) := by omega
    refine ⟨?_, ?_, ?_⟩ <;>
      simp [calculateWindowEdges, calculateCursorShape, Edges.count,
        kDefaultResizeBorderThickness, h1, h2, p1, p4]
  · have p2 : ¬ (x ≥ w - (8 : Int)) := by omega
    have p3 : ¬ (y < (8 : Int)) := by omega
    refine ⟨?_, ?_, ?_⟩ <;>
      simp [calculateWindowEdges, calculateCursorShape, Edges.count,
        kDefaultResizeBorderThickness, h1, h2, p2, p3]

/-- C3 amended witness: the four corners of a windowed 640 by 480 window. -/
theorem c3_corner_regions_witness :
    calculateWindowEdges ⟨640, 480, Visibility.Windowed⟩ ⟨3, 3⟩ = ⟨true, false, true, false⟩ ∧
    calculateWindowEdges ⟨640, 480, Visibility.Windowed⟩ ⟨637, 477⟩ = ⟨false, true, false, true⟩ ∧
    calculateCursorShape ⟨640, 480, Visibility.Windowed⟩ ⟨637, 3⟩ = CursorShape.SizeBDiagCursor :=
  ⟨((c3_corner_regions 640 480 3 3 (by decide) (by decide)).1 (by decide) (by decide)).1,
   ((c3_corner_regions 640 480 637 477 (by decide) (by decide)).2.1 (by decide) (by decide)).1,
   ((c3_corner_regions 640 480 637 3 (by decide) (by decide)).2.2.1 (by decide) (by decide)).2.2⟩

/-- C1: starting in Idle, a left-button press in the title-bar draggable
area (off the resize border, or on a fixed-size window) moves the machine
to PreparingMove with the event swallowed and no delegate call, so no
beginSystemMove; an immediately following release returns the machine to
Idle, swallowed, again with no delegate call; whereas a move event in
PreparingMove transitions to Moving, calls startSystemMove exactly once
and swallows the move event. -/
theorem c1_click_versus_drag (c : Bool) (ctx ctx2 ctx3 : FilterCtx) (b2 b3 : MouseButton)
    (hT : ctx.inTitleBar = true)
    (hE : calculateWindowEdges ctx.win ctx.scenePos = Edges.none ∨ ctx.fixedSize = true) :
    sharedEventFilter ⟨WindowStatus.Idle, c⟩ ctx QEventType.MouseButtonPress
        MouseButton.LeftButton
      = ⟨⟨WindowStatus.PreparingMove, c⟩, [], true⟩ ∧
    sharedEventFilter ⟨WindowStatus.PreparingMove, c⟩ ctx2 QEventType.MouseButtonRelease b2
      = ⟨⟨WindowStatus.Idle, c⟩, [], true⟩ ∧
    sharedEventFilter ⟨WindowStatus.PreparingMove, c⟩ ctx3 QEventType.MouseMove b3
      = ⟨⟨WindowStatus.Moving, c⟩, [FilterAction.startSystemMove], true⟩ := by
  refine ⟨?_, rfl, rfl⟩
  have hcond : ¬ (ctx.fixedSize = false ∧
      calculateWindowEdges ctx.win ctx.scenePos ≠ Edges.none) := by
    rcases hE with h | h
    · exact fun hc => hc.2 h
    · intro hc
      rw [h] at hc
      exact absurd hc.1 (by simp)
  simp [sharedEventFilter, hcond, hT]

/-- C1 witness: the scenario at a concrete context whose pointer position
is off the resize border of a resizable 640 by 480 window. -/
theorem c1_click_versus_drag_witness :
    sharedEventFilter ⟨WindowStatus.Idle, false⟩ ctxW QEventType.MouseButtonPress
        MouseButton.LeftButton
      = ⟨⟨WindowStatus.PreparingMove, false⟩, [], true⟩ ∧
    sharedEventFilter ⟨WindowStatus.PreparingMove, false⟩ ctxW QEventType.MouseButtonRelease
        MouseButton.LeftButton
      = ⟨⟨WindowStatus.Idle, false⟩, [], true⟩ ∧
    sharedEventFilter ⟨WindowStatus.PreparingMove, false⟩ ctxW QEventType.MouseMove
        MouseButton.LeftButton
      = ⟨⟨WindowStatus.Moving, false⟩, [FilterAction.startSystemMove], true⟩ :=
  c1_click_versus_drag false ctxW ctxW ctxW MouseButton.LeftButton MouseButton.LeftButton
    rfl (Or.inl (by decide))

/-- C8: a left-button double-click in the title-bar draggable area of a
window that is not fixed-size, has the maximize style flag and is not
fullscreen makes exactly one setWindowState delegate call with the
maximized bit toggled and swallows the event; when the window is
fixed-size or lacks the maximize style flag the filter makes no delegate
call, leaves the machine state unchanged and forwards the event. -/
theorem c8_double_click_toggle (m : MachineState) (ctx : FilterCtx)
    (hT : ctx.inTitleBar = true) :
    (ctx.fixedSize = false → ctx.maximizeButtonHint = true →
       ctx.windowStates.fullScreen = false →
       sharedEventFilter m ctx QEventType.MouseButtonDblClick MouseButton.LeftButton
         = ⟨m, [FilterAction.setWindowState
                  { ctx.windowStates with maximized := !ctx.windowStates.maximized }], true⟩) ∧
    (ctx.fixedSize = true ∨ ctx.maximizeButtonHint = false →
       sharedEventFilter m ctx QEventType.MouseButtonDblClick MouseButton.LeftButton
         = ⟨m, [], false⟩) := by
  constructor
  · intro h1 h2 h3
    cases hmax : ctx.windowStates.maximized <;>
      simp [sharedEventFilter, hT, h1, h2, h3, hmax]
  · intro h
    rcases h with h | h
    · simp [sharedEventFilter, h]
    · cases hf : ctx.fixedSize <;> simp [sharedEventFilter, hT, h, hf]

/-- C8 witness: a double-click on the resizable context maximizes the
window; on the fixed-size context it is forwarded with no effect. -/
theorem c8_double_click_toggle_witness :
    sharedEventFilter ⟨WindowStatus.Idle, false⟩ ctxW QEventType.MouseButtonDblClick
        MouseButton.LeftButton
      = ⟨⟨WindowStatus.Idle, false⟩, [FilterAction.setWindowState ⟨true, false, false⟩], true⟩ ∧
    sharedEventFilter ⟨WindowStatus.Idle, false⟩ ctxFixed QEventType.MouseButtonDblClick
        MouseButton.LeftButton
      = ⟨⟨WindowStatus.Idle, false⟩, [], false⟩ :=
  ⟨(c8_double_click_toggle ⟨WindowStatus.Idle, false⟩ ctxW rfl).1 rfl rfl rfl,
   (c8_double_click_toggle ⟨WindowStatus.Idle, false⟩ ctxFixed rfl).2 (Or.inl rfl)⟩

/-- C10: from every prior interaction state, a mouse-button-release event
leaves the machine in Idle; the releases taken from PreparingMove, Moving
and Resizing are swallowed, the one from WaitingRelease is forwarded, and
the remaining branch (swallow exactly when in the title bar) is taken only
when the state is already Idle. -/
theorem c10_release_returns_idle (m : MachineState) (ctx : FilterCtx) (b : MouseButton) :
    (sharedEventFilter m ctx QEventType.MouseButtonRelease b).state.windowStatus
        = WindowStatus.Idle ∧
    (m.windowStatus = WindowStatus.PreparingMove ∨ m.windowStatus = WindowStatus.Moving ∨
       m.windowStatus = WindowStatus.Resizing →
       (sharedEventFilter m ctx QEventType.MouseButtonRelease b).handled = true) ∧
    (m.windowStatus = WindowStatus.WaitingRelease →
       (sharedEventFilter m ctx QEventType.MouseButtonRelease b).handled = false) ∧
    (m.windowStatus = WindowStatus.Idle →
       (sharedEventFilter m ctx QEventType.MouseButtonRelease b).handled = ctx.inTitleBar) := by
  obtain ⟨st, c⟩ := m
  cases st <;> cases hT : ctx.inTitleBar <;> simp [sharedEventFilter, hT]

/-- C10 witness: a release in the Moving state at a concrete context ends
in Idle and is swallowed. -/
theorem c10_release_returns_idle_witness :
    (sharedEventFilter ⟨WindowStatus.Moving, false⟩ ctxW QEventType.MouseButtonRelease
        MouseButton.LeftButton).state.windowStatus = WindowStatus.Idle ∧
    (sharedEventFilter ⟨WindowStatus.Moving, false⟩ ctxW QEventType.MouseButtonRelease
        MouseButton.LeftButton).handled = true :=
  ⟨(c10_release_returns_idle ⟨WindowStatus.Moving, false⟩ ctxW MouseButton.LeftButton).1,
   (c10_release_returns_idle ⟨WindowStatus.Moving, false⟩ ctxW MouseButton.LeftButton).2.1
     (Or.inr (Or.inl rfl))⟩

/-- C4: dispatch of one incoming native message.  When the window handle
is absent from the hook table the message goes to the platform default
handler.  When present and the message is a designated system-menu
trigger, the controller is invoked at the computed global position and
the message is swallowed with a handled result.  Every other message is
forwarded to the recorded original procedure.  The last conjunct
characterizes the designated set: exactly a client-area right-button-up
in the title-bar draggable area, a non-client right-button-up at the
caption hit-test code, the keyboard system-menu command, or an Alt+Space
key-down. -/
theorem c4_dispatch_routing (env : NativeEnv) (table : List (HWND × HookRecord))
    (hwnd : HWND) (msg : NMsg) :
    (findRec table hwnd = none →
       SystemMenuHookWindowProc env table hwnd msg = ⟨none, HookRoute.defProc⟩) ∧
    (∀ data, findRec table hwnd = some data →
       (∀ pos byKeyboard, systemMenuTrigger env msg = some (pos, byKeyboard) →
          SystemMenuHookWindowProc env table hwnd msg
            = ⟨some (pos, byKeyboard, env.isHostSizeFixed), HookRoute.swallowed⟩) ∧
       (systemMenuTrigger env msg = none →
          ∀ origProc, data.originalWindowProc = some origProc →
            SystemMenuHookWindowProc env table hwnd msg
              = ⟨none, HookRoute.callOriginal origProc⟩)) ∧
    ((systemMenuTrigger env msg).isSome = true ↔
       ((∃ x y, msg = NMsg.rbuttonup x y ∧ env.inTitleBarDraggable x y = true) ∨
        (∃ x y, msg = NMsg.ncrbuttonup HTCAPTION x y) ∨
        (∃ w l, msg = NMsg.syscommand w l ∧ (w &&& 0xFFF0) = SC_KEYMENU ∧ l = VK_SPACE) ∨
        (∃ w a sp, msg = NMsg.keydown w a sp ∧ ((w = VK_MENU) ∨ a = true) ∧
           ((w = VK_SPACE) ∨ sp = true)))) := by
  refine ⟨?_, ?_, ?_⟩
  · intro h
    simp [SystemMenuHookWindowProc, h]
  · intro data h
    constructor
    · intro pos byKeyboard htrig
      simp [SystemMenuHookWindowProc, h, htrig]
    · intro htrig origProc horig
      simp [SystemMenuHookWindowProc, h, htrig, horig]
  · cases msg with
    | rbuttonup x y =>
      cases h : env.inTitleBarDraggable x y <;> simp [systemMenuTrigger, h]
      exact ⟨x, y, ⟨rfl, rfl⟩, h⟩
    | ncrbuttonup w x y =>
      by_cases h : w = HTCAPTION <;> simp [systemMenuTrigger, h]
    | syscommand w l =>
      constructor
      · intro hs
        by_cases h : (w &&& 0xFFF0) = SC_KEYMENU ∧ l = VK_SPACE
        · exact Or.inr (Or.inr (Or.inl ⟨w, l, rfl, h.1, h.2⟩))
        · exfalso
          have hn : systemMenuTrigger env (NMsg.syscommand w l) = none := by
            simp only [systemMenuTrigger]
            rw [if_neg h]
          rw [hn] at hs
          simp at hs
      · intro hr
        rcases hr with ⟨x, y, hx, hh⟩ | ⟨x, y, hx⟩ | ⟨w0, l0, hx, h1, h2⟩ |
          ⟨w0, a0, sp0, hx, h1, h2⟩
        · simp at hx
        · simp at hx
        · injection hx with e1 e2
          subst e1
          subst e2
          have hp : systemMenuTrigger env (NMsg.syscommand w l)
              = some ((env.windowRect.1, env.windowRect.2 + 30), true) := by
            simp only [systemMenuTrigger]
            rw [if_pos ⟨h1, h2⟩]
          rw [hp]
          rfl
        · simp at hx
    | keydown w a sp =>
      constructor
      · intro hs
        by_cases h : ((w = VK_MENU) ∨ a = true) ∧ ((w = VK_SPACE) ∨ sp = true)
        · exact Or.inr (Or.inr (Or.inr ⟨w, a, sp, rfl, h.1, h.2⟩))
        · exfalso
          have hn : systemMenuTrigger env (NMsg.keydown w a sp) = none := by
            simp only [systemMenuTrigger]
            rw [if_neg h]
          rw [hn] at hs
          simp at hs
      · intro hr
        rcases hr with ⟨x, y, hx, hh⟩ | ⟨x, y, hx⟩ | ⟨w0, l0, hx, h1, h2⟩ |
          ⟨w0, a0, sp0, hx, h1, h2⟩
        · simp at hx
        · simp at hx
        · simp at hx
        · injection hx with e1 e2 e3
          subst e1
          subst e2
          subst e3
          have hp : systemMenuTrigger env (NMsg.keydown w a sp)
              = some ((env.windowRect.1, env.windowRect.2 + 30), true) := by
            simp only [systemMenuTrigger]
            rw [if_pos ⟨h1, h2⟩]
          rw [hp]
          rfl
    | other u => simp [systemMenuTrigger]

/-- C4 witness: a message to an unhooked handle falls to the default
handler; a caption right-click on a hooked handle invokes the controller
and is swallowed; an undesignated message on a hooked handle reaches the
recorded original procedure. -/
theorem c4_dispatch_routing_witness :
    SystemMenuHookWindowProc envW [] 5 (NMsg.other 1) = ⟨none, HookRoute.defProc⟩ ∧
    SystemMenuHookWindowProc envW tableW 5 (NMsg.ncrbuttonup HTCAPTION 40 50)
      = ⟨some ((40, 50), false, false), HookRoute.swallowed⟩ ∧
    SystemMenuHookWindowProc envW tableW 5 (NMsg.other 1)
      = ⟨none, HookRoute.callOriginal (WndHandler.ext 9)⟩ :=
  ⟨(c4_dispatch_routing envW [] 5 (NMsg.other 1)).1 rfl,
   ((c4_dispatch_routing envW tableW 5 (NMsg.ncrbuttonup HTCAPTION 40 50)).2.1
      ⟨some (WndHandler.ext 9), 1⟩ rfl).1 (40, 50) false rfl,
   ((c4_dispatch_routing envW tableW 5 (NMsg.other 1)).2.1
      ⟨some (WndHandler.ext 9), 1⟩ rfl).2 rfl (WndHandler.ext 9) rfl⟩

/-- C5: for a handle not yet hooked whose procedure slot holds an
external procedure, install followed by uninstall restores the slot to
exactly that original procedure and removes the table record, so every
subsequent message delivered to the window reaches the original
procedure and none reaches the replacement. -/
theorem c5_install_uninstall_roundtrip (s : SysState) (hwnd : HWND) (ctxId n : Nat)
    (habs : findRec s.qtContextHash hwnd = none)
    (horig : s.wndProc hwnd = some (WndHandler.ext n)) :
    (uninstallSystemMenuHook hwnd (installSystemMenuHook hwnd ctxId s)).wndProc hwnd
        = some (WndHandler.ext n) ∧
    findRec (uninstallSystemMenuHook hwnd
        (installSystemMenuHook hwnd ctxId s)).qtContextHash hwnd = none ∧
    ∀ env msg,
      deliverMessage env (uninstallSystemMenuHook hwnd (installSystemMenuHook hwnd ctxId s))
          hwnd msg = Delivered.reachedHandler n := by
  have hinst : installSystemMenuHook hwnd ctxId s =
      ⟨fun w => if w = hwnd then some WndHandler.hook else s.wndProc w,
       (hwnd, ⟨some (WndHandler.ext n), ctxId⟩) :: s.qtContextHash⟩ := by
    simp [installSystemMenuHook, habs, horig]
  rw [hinst]
  simp [uninstallSystemMenuHook, findRec, removeRec, habs, deliverMessage]

/-- C5 witness: handle 7 of the concrete initial state, whose original
procedure is the external procedure 4. -/
theorem c5_install_uninstall_roundtrip_witness :
    (uninstallSystemMenuHook 7 (installSystemMenuHook 7 1 sInit)).wndProc 7
        = some (WndHandler.ext 4) ∧
    findRec (uninstallSystemMenuHook 7 (installSystemMenuHook 7 1 sInit)).qtContextHash 7
        = none ∧
    ∀ env msg,
      deliverMessage env (uninstallSystemMenuHook 7 (installSystemMenuHook 7 1 sInit)) 7 msg
        = Delivered.reachedHandler 4 :=
  c5_install_uninstall_roundtrip sInit 7 1 4 rfl rfl

/-- C6: install is idempotent per window handle: when the handle is
already present in the hook table, install is a complete no-op, leaving
the table record, every procedure slot and the recorded original
procedure unchanged. -/
theorem c6_install_idempotent (s : SysState) (hwnd : HWND) (ctxId : Nat)
    (h : (findRec s.qtContextHash hwnd).isSome = true) :
    installSystemMenuHook hwnd ctxId s = s := by
  unfold installSystemMenuHook
  rw [if_pos h]

/-- C6 witness: a second install for the hooked handle 5 with a different
context identifier changes nothing. -/
theorem c6_install_idempotent_witness :
    installSystemMenuHook 5 2 ⟨fun _ => some WndHandler.hook, tableW⟩
      = ⟨fun _ => some WndHandler.hook, tableW⟩ :=
  c6_install_idempotent ⟨fun _ => some WndHandler.hook, tableW⟩ 5 2 rfl

/-- C7: with the system menu handle available, the controller computes a
configuration purely from style and state: Close always enabled;
Maximize disabled iff maximized, fixed-size or not maximizable; Restore
enabled iff maximized, not fixed-size and maximizable; Minimize enabled
iff minimizable; Size disabled iff maximized or fixed-size; Move
disabled iff maximized; and the default item is Restore when maximized,
else Maximize (the Close fallback of the source is unreachable). -/
theorem c7_menu_configuration (env : MenuWindowEnv) (pos : Int × Int)
    (selectFirstEntry fixedSize : Bool) (h : env.hasSystemMenu = true) :
    ∃ cfg, (showSystemMenu_sys env pos selectFirstEntry fixedSize).config = some cfg ∧
      cfg.closeEnabled = true ∧
      (cfg.maximizeEnabled = false ↔
        (env.isZoomed = true ∨ fixedSize = true ∨ env.allowMaximize = false)) ∧
      (cfg.restoreEnabled = true ↔
        (env.isZoomed = true ∧ fixedSize = false ∧ env.allowMaximize = true)) ∧
      cfg.minimizeEnabled = env.allowMinimize ∧
      (cfg.sizeEnabled = false ↔ (env.isZoomed = true ∨ fixedSize = true)) ∧
      (cfg.moveEnabled = false ↔ env.isZoomed = true) ∧
      cfg.defaultItem = (if env.isZoomed = true then SC_RESTORE else SC_MAXIMIZE) := by
  obtain ⟨hm, amax, amin, zoom, rtl, track⟩ := env
  simp only at h
  subst h
  by_cases ht : track = 0 <;>
    cases amax <;> cases zoom <;> cases fixedSize <;>
      simp [showSystemMenu_sys, SC_RESTORE, SC_MAXIMIZE, SC_CLOSE, UINT_MAX, ht]

/-- C7 witness: a maximized, maximizable, non-fixed-size window. -/
theorem c7_menu_configuration_witness :
    ∃ cfg, (showSystemMenu_sys menuEnvMax (0, 0) false false).config = some cfg ∧
      cfg.closeEnabled = true ∧
      (cfg.maximizeEnabled = false ↔
        (menuEnvMax.isZoomed = true ∨ false = true ∨ menuEnvMax.allowMaximize = false)) ∧
      (cfg.restoreEnabled = true ↔
        (menuEnvMax.isZoomed = true ∧ false = false ∧ menuEnvMax.allowMaximize = true)) ∧
      cfg.minimizeEnabled = menuEnvMax.allowMinimize ∧
      (cfg.sizeEnabled = false ↔ (menuEnvMax.isZoomed = true ∨ false = true)) ∧
      (cfg.moveEnabled = false ↔ menuEnvMax.isZoomed = true) ∧
      cfg.defaultItem = (if menuEnvMax.isZoomed = true then SC_RESTORE else SC_MAXIMIZE) :=
  c7_menu_configuration menuEnvMax (0, 0) false false rfl

/-- C9: when the native system menu handle is unavailable the controller
configures nothing, displays nothing, clears nothing, posts no command
and returns true, as if handled. -/
theorem c9_unavailable_menu_silent (env : MenuWindowEnv) (pos : Int × Int)
    (selectFirstEntry fixedSize : Bool) (h : env.hasSystemMenu = false) :
    showSystemMenu_sys env pos selectFirstEntry fixedSize
      = ⟨none, none, false, none, true⟩ := by
  simp [showSystemMenu_sys, h]

/-- C9 witness: the environment without a system menu handle. -/
theorem c9_unavailable_menu_silent_witness :
    showSystemMenu_sys menuEnvNone (0, 0) false false = ⟨none, none, false, none, true⟩ :=
  c9_unavailable_menu_silent menuEnvNone (0, 0) false false rfl

end QWK
